import Mathlib

/-!
Verification development for the pathutil library (src/src/*.rs).

Paths and OS strings are modelled at the byte level as List Nat (the Unix
byte representation used by the crate, target_os linux per the doctests).
Fallible operations return Except IoError, where IoError models a
std::io::Error together with the ordered list of diagnostic annotations
attached by the error_annotation combinators.  Filesystem effects (read_dir,
copy, metadata system calls) are modelled by passing the outcome of the
underlying native call as an explicit argument.
-/

/-- Modelled from the spec: the annotated error value of the error_annotation
dependency together with other_error from the missing revision of
src/src/error.rs (lib.rs imports other_error, but the error.rs revision under
src/ is a stale variant that does not define it).  An error is a short
description plus an ordered association list of labelled annotation values;
annotate_err_into appends one pair, and the textual rendering is the
description followed by one "-with label: value" line per pair in attachment
order, exactly reproducing the doctest renderings in src/src/pathext.rs. -/
structure IoError where
  desc : String
  annotations : List (String × String)
deriving DecidableEq

/-- Modelled from the spec: other_error(desc) builds a plain io::Error of kind
Other carrying the description and no annotations. -/
def otherError (s : String) : IoError := IoError.mk s []

/-- Modelled from the spec: annotate_err_into(label, value) wraps an error,
appending one labelled annotation; rendering prints the wrapped (earlier)
error first, so appended pairs print after existing ones. -/
def annotate (label value : String) (e : IoError) : IoError :=
  IoError.mk e.desc (e.annotations ++ [(label, value)])

/-- One rendered annotation line. -/
def annLine (a : String × String) : String := "\n-with " ++ a.1 ++ ": " ++ a.2

/-- Modelled from the spec: the Display rendering of an annotated error, as
pinned by the doctests: description line, then one line per annotation in
attachment order, no trailing separator. -/
def renderError (e : IoError) : String :=
  e.annotations.foldl (fun acc a => acc ++ annLine a) e.desc

/-! ## UTF-8 (models str::from_utf8 validity and String::from_utf8_lossy) -/

/-- A UTF-8 continuation byte (0x80 - 0xBF). -/
def contB (b : Nat) : Bool := decide (128 ≤ b ∧ b < 192)

/-- Valid range of the first continuation byte for a given lead byte,
following the standard UTF-8 table (excludes overlongs and surrogates). -/
def cont1Range (b c1 : Nat) : Bool :=
  if b = 224 then decide (160 ≤ c1 ∧ c1 ≤ 191)
  else if b = 237 then decide (128 ≤ c1 ∧ c1 ≤ 159)
  else if 225 ≤ b ∧ b ≤ 239 then contB c1
  else if b = 240 then decide (144 ≤ c1 ∧ c1 ≤ 191)
  else if 241 ≤ b ∧ b ≤ 243 then contB c1
  else if b = 244 then decide (128 ≤ c1 ∧ c1 ≤ 143)
  else false

/-- Decode one scalar value from the head of a byte list, returning the
character and the number of bytes consumed, or none when the head is not a
valid UTF-8 sequence. -/
def utf8Step1 : List Nat → Option (Char × Nat)
  | [] => none
  | b :: rest =>
    if b < 128 then some (Char.ofNat b, 1)
    else if 194 ≤ b ∧ b ≤ 223 then
      match rest with
      | c1 :: _ =>
        if contB c1 then some (Char.ofNat ((b - 192) * 64 + (c1 - 128)), 2) else none
      | [] => none
    else if 224 ≤ b ∧ b ≤ 239 then
      match rest with
      | c1 :: c2 :: _ =>
        if cont1Range b c1 && contB c2 then
          some (Char.ofNat ((b - 224) * 4096 + (c1 - 128) * 64 + (c2 - 128)), 3)
        else none
      | _ => none
    else if 240 ≤ b ∧ b ≤ 244 then
      match rest with
      | c1 :: c2 :: c3 :: _ =>
        if cont1Range b c1 && contB c2 && contB c3 then
          some (Char.ofNat
            ((b - 240) * 262144 + (c1 - 128) * 4096 + (c2 - 128) * 64 + (c3 - 128)), 4)
        else none
      | _ => none
    else none

/-- Length of the maximal subpart of an ill-formed sequence at the head
(always at least 1 on a nonempty list), per the substitution-of-maximal-
subparts policy used by String::from_utf8_lossy. -/
def badLen : List Nat → Nat
  | [] => 1
  | b :: rest =>
    if 224 ≤ b ∧ b ≤ 239 then
      match rest with
      | c1 :: _ => if cont1Range b c1 then 2 else 1
      | [] => 1
    else if 240 ≤ b ∧ b ≤ 244 then
      match rest with
      | c1 :: c2 :: _ => if cont1Range b c1 then (if contB c2 then 3 else 2) else 1
      | [c1] => if cont1Range b c1 then 2 else 1
      | [] => 1
    else 1

/-- Strict UTF-8 decoding (fuel-indexed; fuel = list length suffices since
each step consumes at least one byte). -/
def utf8DecAux : Nat → List Nat → Option (List Char)
  | _, [] => some []
  | 0, _ :: _ => none
  | f + 1, b :: rest =>
    match utf8Step1 (b :: rest) with
    | some (c, k) =>
      match utf8DecAux f ((b :: rest).drop k) with
      | some cs => some (c :: cs)
      | none => none
    | none => none

/-- Lossy UTF-8 decoding: ill-formed maximal subparts become U+FFFD. -/
def lossyAux : Nat → List Nat → List Char
  | _, [] => []
  | 0, _ :: _ => []
  | f + 1, b :: rest =>
    match utf8Step1 (b :: rest) with
    | some (c, k) => c :: lossyAux f ((b :: rest).drop k)
    | none => Char.ofNat 65533 :: lossyAux f ((b :: rest).drop (badLen (b :: rest)))

/-- Models OsStr::to_str / Path::to_str: the UTF-8 text when the bytes are
valid UTF-8, otherwise none. -/
def osToStr (l : List Nat) : Option String :=
  match utf8DecAux l.length l with
  | some cs => some (String.mk cs)
  | none => none

/-- Models Path::display (and .display().to_string()): lossy UTF-8 text. -/
def displayS (l : List Nat) : String := String.mk (lossyAux l.length l)

/-- UTF-8 encoding of one character (modelling convenience for building
concrete byte inputs from string literals). -/
def utf8EncodeCharBytes (c : Char) : List Nat :=
  let n := c.toNat
  if n < 128 then [n]
  else if n < 2048 then [192 + n / 64, 128 + n % 64]
  else if n < 65536 then [224 + n / 4096, 128 + n / 64 % 64, 128 + n % 64]
  else [240 + n / 262144, 128 + n / 4096 % 64, 128 + n / 64 % 64, 128 + n % 64]

/-- Byte list of a string literal (modelling convenience for witnesses). -/
def bytesOf (s : String) : List Nat :=
  s.data.foldr (fun c acc => utf8EncodeCharBytes c ++ acc) []

/-! ## Path component parsing (models std::path for Unix) -/

/-- A parsed path component, as in std::path::Component (no Windows prefix). -/
inductive PathComp where
  | rootDir
  | curDir
  | parentDir
  | normal (name : List Nat)
deriving DecidableEq, BEq

/-- Split a byte list on the separator byte 47, keeping empty chunks. -/
def splitChunks : List Nat → List (List Nat)
  | [] => [[]]
  | b :: r =>
    if b = 47 then [] :: splitChunks r
    else
      match splitChunks r with
      | [] => [[b]]
      | c :: cs => (b :: c) :: cs

/-- Whether the path begins with the root separator. -/
def hasRoot (p : List Nat) : Bool :=
  match p with
  | b :: _ => b = 47
  | [] => false

/-- Whether the components include a leading CurDir: a relative path whose
bytes are exactly "." or start with "./" (std::path::Components). -/
def includeCurDir (p : List Nat) : Bool :=
  !hasRoot p && (p = [46] || p.take 2 = [46, 47])

/-- Classify a nonempty non-"." chunk. -/
def classifyChunk (c : List Nat) : PathComp :=
  if c = [46, 46] then PathComp.parentDir else PathComp.normal c

/-- Models Path::components for Unix: optional root, optional leading CurDir,
then each nonempty chunk other than "." as ParentDir or Normal (occurrences
of "." are normalized away except at the beginning of a relative path). -/
def pathComponents (p : List Nat) : List PathComp :=
  let body := (splitChunks p).filter (fun c => !(c = [] || c = [46]))
  (if hasRoot p then [PathComp.rootDir]
   else if includeCurDir p then [PathComp.curDir]
   else []) ++ body.map classifyChunk

/-- Models Path::file_name: the final component when it is Normal. -/
def pathFileName (p : List Nat) : Option (List Nat) :=
  match (pathComponents p).getLast? with
  | some (PathComp.normal n) => some n
  | _ => none

/-- Index of the last dot byte in a file name, if any. -/
def lastDotIdx (n : List Nat) : Option Nat :=
  match n.reverse.findIdx? (fun b => b = 46) with
  | some j => some (n.length - 1 - j)
  | none => none

/-- Models std::path rsplit_file_at_dot: (before, after) around the final
dot; a name of ".." or a name whose only dot is leading yields
(whole name, none); a dotless name yields (none, whole name). -/
def rsplitFileAtDot (n : List Nat) : Option (List Nat) × Option (List Nat) :=
  if n = [46, 46] then (some n, none)
  else
    match lastDotIdx n with
    | none => (none, some n)
    | some i =>
      if i = 0 then (some n, none) else (some (n.take i), some (n.drop (i + 1)))

/-- Models Path::file_stem: before.or(after) of the dot split. -/
def pathFileStem (p : List Nat) : Option (List Nat) :=
  match pathFileName p with
  | none => none
  | some n =>
    match rsplitFileAtDot n with
    | (some b, _) => some b
    | (none, a) => a

/-- Models Path::extension: before.and(after) of the dot split. -/
def pathExtension (p : List Nat) : Option (List Nat) :=
  match pathFileName p with
  | none => none
  | some n =>
    match rsplitFileAtDot n with
    | (some _, a) => a
    | (none, _) => none

/-- Length of the root part ("/" or nothing). -/
def rootLen (p : List Nat) : Nat := if hasRoot p then 1 else 0

/-- Length of the prefix preceding the body: root plus a leading ".". -/
def lenBeforeBody (p : List Nat) : Nat :=
  rootLen p + (if includeCurDir p then 1 else 0)

/-- Remove leading separators and "." chunks (the non-component junk skipped
by the Components iterator when trimming); applied to the reversed tail it
performs the right trim of Components::as_path, applied forward the left
trim (fuel-indexed; fuel = list length suffices). -/
def trimJunkAux : Nat → List Nat → List Nat
  | 0, l => l
  | f + 1, l =>
    let l1 := l.dropWhile (fun b => b = 47)
    if l1.takeWhile (fun b => !(b = 47)) = [46] then trimJunkAux f (l1.drop 1) else l1

/-- Remove leading separators and "." chunks. -/
def trimJunk (l : List Nat) : List Nat := trimJunkAux l.length l

/-- Parse the final component of a path, also returning the raw bytes that
remain in front of it (models Components::next_back plus the untrimmed
remaining slice). -/
def backSplit (p : List Nat) : Option PathComp × List Nat :=
  let k := lenBeforeBody p
  let pre := p.take k
  let rb := trimJunk (p.drop k).reverse
  let chunkRev := rb.takeWhile (fun b => !(b = 47))
  if chunkRev = [] then
    if hasRoot p then (some PathComp.rootDir, [])
    else if includeCurDir p then (some PathComp.curDir, [])
    else (none, [])
  else
    (some (classifyChunk chunkRev.reverse), pre ++ (rb.drop chunkRev.length).reverse)

/-- Models Path::parent: none when the path has no components or ends at the
root; otherwise the raw bytes before the final component, right-trimmed of
trailing separators and "." chunks (Components::as_path). -/
def pathParent (p : List Nat) : Option (List Nat) :=
  match backSplit p with
  | (none, _) => none
  | (some PathComp.rootDir, _) => none
  | (some _, rest) =>
    let k := lenBeforeBody p
    some (rest.take k ++ (trimJunk (rest.drop k).reverse).reverse)

/-- Consume k leading body components from raw bytes, skipping separators and
"." chunks (fuel-indexed). -/
def consumeBodyAux : Nat → List Nat → Nat → List Nat
  | 0, l, _ => l
  | _, l, 0 => l
  | f + 1, l, k + 1 =>
    let l1 := l.dropWhile (fun b => b = 47)
    let chunk := l1.takeWhile (fun b => !(b = 47))
    if chunk = [] then l1
    else if chunk = [46] then consumeBodyAux f (l1.drop 1) (k + 1)
    else consumeBodyAux f (l1.drop chunk.length) k

/-- Raw bytes remaining after consuming n leading components. -/
def consumeFront (p : List Nat) (n : Nat) : List Nat :=
  if n = 0 then p
  else if hasRoot p || includeCurDir p then consumeBodyAux p.length (p.drop 1) (n - 1)
  else consumeBodyAux p.length p n

/-- Models Path::strip_prefix: when the component sequence of base is a
prefix of that of p, the raw remainder of p (left-trimmed when any component
was consumed), otherwise none. -/
def pathStripPfx (p base : List Nat) : Option (List Nat) :=
  let cb := pathComponents base
  if cb.isPrefixOf (pathComponents p) then
    if cb = [] then some p else some (trimJunk (consumeFront p cb.length))
  else none

/-! ## The PathExt operations (src/src/pathext.rs) -/

/-- The o2r helper of src/src/pathext.rs: turn an Option into a Result, the
none case becoming an other_error with the given description annotated with
the path. -/
def o2r {α : Type} (path : List Nat) (opt : Option α) (errordesc : String) :
    Except IoError α :=
  match opt with
  | some v => Except.ok v
  | none => Except.error (annotate "path" (displayS path) (otherError errordesc))

/-- The error produced by o2r in the none case (abbreviation used in
theorem statements). -/
def pathErr (d : String) (p : List Nat) : IoError :=
  annotate "path" (displayS p) (otherError d)

/-- PathExt::pe_to_str. -/
def pe_to_str (p : List Nat) : Except IoError String :=
  o2r p (osToStr p) "invalid utf8"

/-- PathExt::pe_parent. -/
def pe_parent (p : List Nat) : Except IoError (List Nat) :=
  o2r p (pathParent p) "no parent path"

/-- PathExt::pe_file_name. -/
def pe_file_name (p : List Nat) : Except IoError (List Nat) :=
  o2r p (pathFileName p) "no file name"

/-- PathExt::pe_file_name_str. -/
def pe_file_name_str (p : List Nat) : Except IoError String :=
  match pe_file_name p with
  | Except.error e => Except.error e
  | Except.ok os => o2r p (osToStr os) "invalid utf8"

/-- PathExt::pe_strip_prefix: on mismatch, an other_error with description
"prefix mismatch" annotated first with the prefix, then with the path. -/
def pe_strip_prefix (p base : List Nat) : Except IoError (List Nat) :=
  match pathStripPfx p base with
  | some r => Except.ok r
  | none =>
    Except.error
      (annotate "path" (displayS p)
        (annotate "prefix" (displayS base) (otherError "prefix mismatch")))

/-- PathExt::pe_file_stem. -/
def pe_file_stem (p : List Nat) : Except IoError (List Nat) :=
  o2r p (pathFileStem p) "no file name"

/-- PathExt::pe_file_stem_str. -/
def pe_file_stem_str (p : List Nat) : Except IoError String :=
  match pe_file_stem p with
  | Except.error e => Except.error e
  | Except.ok os => o2r p (osToStr os) "invalid utf8"

/-- PathExt::pe_extension. -/
def pe_extension (p : List Nat) : Except IoError (List Nat) :=
  o2r p (pathExtension p) "no file name or no extension"

/-- PathExt::pe_extension_str. -/
def pe_extension_str (p : List Nat) : Except IoError String :=
  match pe_extension p with
  | Except.error e => Except.error e
  | Except.ok os => o2r p (osToStr os) "invalid utf8"

/-- PathExt::pe_copy: the outcome of std::fs::copy is the sys argument; on
failure the error is annotated first with the source as "from", then the
destination as "to". -/
def pe_copy (p topath : List Nat) (sys : Except IoError Nat) : Except IoError Nat :=
  match sys with
  | Except.ok n => Except.ok n
  | Except.error e =>
    Except.error (annotate "to" (displayS topath) (annotate "from" (displayS p) e))

/-! ## File types and metadata (src/src/filetype.rs, src/src/metadata.rs) -/

/-- Models std::fs::FileType through the three query methods the crate uses. -/
structure FileType where
  isDir : Bool
  isFile : Bool
  isSymlink : Bool
deriving DecidableEq

/-- FileTypeEnum of src/src/filetype.rs. -/
inductive FileTypeEnum where
  | dir
  | file
  | symlink
deriving DecidableEq

/-- The From(FileType) conversion of src/src/filetype.rs: none models the
unreachable! panic taken when the file type is none of directory, regular
file, or symlink (e.g. a FIFO or a socket). -/
def fileTypeEnumFrom (ft : FileType) : Option FileTypeEnum :=
  if ft.isDir then some FileTypeEnum.dir
  else if ft.isFile then some FileTypeEnum.file
  else if ft.isSymlink then some FileTypeEnum.symlink
  else none

/-- The derived Debug rendering of FileTypeEnum. -/
def ftDebug : FileTypeEnum → String
  | FileTypeEnum.dir => "Dir"
  | FileTypeEnum.file => "File"
  | FileTypeEnum.symlink => "Symlink"

/-- The fields of std::fs::Metadata the crate consults. -/
structure Metadata where
  ftype : FileType
  flen : Nat
deriving DecidableEq

/-- PathMetadata of src/src/metadata.rs: a Metadata paired with the
originating path. -/
structure PathMetadata where
  path : List Nat
  md : Metadata
deriving DecidableEq

/-- PathMetadata::require_file_type: compares the found discriminant with the
expected one; the error carries only the found/expected description and no
annotation.  The outer none models the panic propagated from the
FileType conversion on an incoherent file type. -/
def PathMetadata.require_file_type (pm : PathMetadata) (expected : FileTypeEnum) :
    Option (Except IoError Unit) :=
  match fileTypeEnumFrom pm.md.ftype with
  | none => none
  | some found =>
    some
      (if found = expected then Except.ok ()
       else
         Except.error
           (otherError ("found " ++ ftDebug found ++ ", expected " ++ ftDebug expected)))

/-! ## Directory entries and listings (src/src/direntry.rs, src/src/readdir.rs) -/

/-- Models std::fs::DirEntry: the entry name plus the outcomes of the native
per-entry system calls (metadata, file_type), which are environment inputs. -/
structure DirEntry where
  name : List Nat
  mdResult : Except IoError Metadata
  ftResult : Except IoError FileType

/-- Models PathBuf::join as used by DirEntry::path: dir path joined with the
entry file name. -/
def pathJoin (p q : List Nat) : List Nat :=
  if hasRoot q then q
  else if p = [] then q
  else if p.getLast? = some 47 then p ++ q
  else p ++ 47 :: q

/-- PathDirEntry of src/src/direntry.rs: a DirEntry paired with the
containing directory path. -/
structure PathDirEntry where
  dirpath : List Nat
  de : DirEntry

/-- PathDirEntry::path: the entry path inside the directory. -/
def PathDirEntry.path (e : PathDirEntry) : List Nat := pathJoin e.dirpath e.de.name

/-- PathDirEntry::metadata: failures of the native call are annotated with
the containing directory path under the label "parent-dir"; on success the
resulting PathMetadata is associated with the entry path. -/
def PathDirEntry.metadata (e : PathDirEntry) : Except IoError PathMetadata :=
  match e.de.mdResult with
  | Except.error err => Except.error (annotate "parent-dir" (displayS e.dirpath) err)
  | Except.ok md => Except.ok (PathMetadata.mk (PathDirEntry.path e) md)

/-- PathDirEntry::file_type: failures of the native call are annotated with
the entry path under the label "path". -/
def PathDirEntry.file_type (e : PathDirEntry) : Except IoError FileType :=
  match e.de.ftResult with
  | Except.error err => Except.error (annotate "path" (displayS (PathDirEntry.path e)) err)
  | Except.ok ft => Except.ok ft

/-- PathReadDir of src/src/readdir.rs: the native directory stream (a list of
per-entry outcomes, in platform order) paired with the directory path. -/
structure PathReadDir where
  path : List Nat
  rd : List (Except IoError DirEntry)

/-- The item mapping of the Iterator impl for PathReadDir: a failed entry is
annotated with the directory path; a successful one is wrapped with the
directory path. -/
def wrapItem (p : List Nat) : Except IoError DirEntry → Except IoError PathDirEntry
  | Except.error e => Except.error (annotate "path" (displayS p) e)
  | Except.ok d => Except.ok (PathDirEntry.mk p d)

/-- The sequence yielded by iterating a PathReadDir. -/
def PathReadDir.items (r : PathReadDir) : List (Except IoError PathDirEntry) :=
  r.rd.map (wrapItem r.path)

/-- PathExt::pe_read_dir: the outcome of std::fs::read_dir is the sys
argument; failure is annotated with the directory path. -/
def pe_read_dir (p : List Nat) (sys : Except IoError (List (Except IoError DirEntry))) :
    Except IoError PathReadDir :=
  match sys with
  | Except.ok rd => Except.ok (PathReadDir.mk p rd)
  | Except.error e => Except.error (annotate "path" (displayS p) e)

/-- Rust collect() into a Result of Vec: first failure, else all values. -/
def collectExcept {ε α : Type} : List (Except ε α) → Except ε (List α)
  | [] => Except.ok []
  | Except.error e :: _ => Except.error e
  | Except.ok a :: rest =>
    match collectExcept rest with
    | Except.error e => Except.error e
    | Except.ok as => Except.ok (a :: as)

/-- PathExt::pe_read_dir_entries: read the directory and collect the entries. -/
def pe_read_dir_entries (p : List Nat)
    (sys : Except IoError (List (Except IoError DirEntry))) :
    Except IoError (List PathDirEntry) :=
  match pe_read_dir p sys with
  | Except.error e => Except.error e
  | Except.ok r => collectExcept (PathReadDir.items r)

/-! ## The historical direct impl (src/src/pathimpl.rs, src/src/privtrait.rs) -/

/-- PathExtPriv::o2r of src/src/privtrait.rs: identical conversion, building
the error with Error::new(Other, desc) and annotating with the path display. -/
def pep_o2r {α : Type} (p : List Nat) (opt : Option α) (errordesc : String) :
    Except IoError α :=
  match opt with
  | some v => Except.ok v
  | none => Except.error (annotate "path" (displayS p) (IoError.mk errordesc []))

namespace PathImpl

/-- pathimpl.rs pe_to_str. -/
def pe_to_str (p : List Nat) : Except IoError String :=
  pep_o2r p (osToStr p) "invalid utf8"

/-- pathimpl.rs pe_parent. -/
def pe_parent (p : List Nat) : Except IoError (List Nat) :=
  pep_o2r p (pathParent p) "no parent path"

/-- pathimpl.rs pe_file_name. -/
def pe_file_name (p : List Nat) : Except IoError (List Nat) :=
  pep_o2r p (pathFileName p) "no file name"

/-- pathimpl.rs pe_strip_prefix (same body as the default trait method). -/
def pe_strip_prefix (p base : List Nat) : Except IoError (List Nat) :=
  match pathStripPfx p base with
  | some r => Except.ok r
  | none =>
    Except.error
      (annotate "path" (displayS p)
        (annotate "prefix" (displayS base) (otherError "prefix mismatch")))

/-- pathimpl.rs pe_file_stem. -/
def pe_file_stem (p : List Nat) : Except IoError (List Nat) :=
  pep_o2r p (pathFileStem p) "no file name"

/-- pathimpl.rs pe_extension. -/
def pe_extension (p : List Nat) : Except IoError (List Nat) :=
  pep_o2r p (pathExtension p) "no file name or no extension"

end PathImpl

/-- C1: for every path lacking the queried structural component, the accessor
fails with the fixed case-sensitive description annotated with the path:
pe_parent with "no parent path" when the path has no parent; pe_file_name and
pe_file_stem with "no file name" when the final component is ".." or "." ;
pe_extension with "no file name or no extension" when the final component has
no dot-delimited suffix; and the rendered text of each such error ends with
"-with path: " followed by the path display. -/
theorem c1_absence_descriptions :
    ∀ p : List Nat,
      (pathParent p = none →
        pe_parent p = Except.error (pathErr "no parent path" p)) ∧
      ((pathComponents p).getLast? = some PathComp.parentDir ∨
          (pathComponents p).getLast? = some PathComp.curDir →
        pe_file_name p = Except.error (pathErr "no file name" p) ∧
        pe_file_stem p = Except.error (pathErr "no file name" p)) ∧
      (pathExtension p = none →
        pe_extension p =
          Except.error (pathErr "no file name or no extension" p)) ∧
      (∀ d : String,
        renderError (pathErr d p) = d ++ ("\n-with path: " ++ displayS p)) := by
  intro p
  refine ⟨?_, ?_, ?_, ?_⟩
  · intro h
    unfold pe_parent o2r
    rw [h]
    rfl
  · intro h
    have hfn : pathFileName p = none := by
      rcases h with h | h <;> simp [pathFileName, h]
    constructor
    · unfold pe_file_name o2r
      rw [hfn]
      rfl
    · have hfs : pathFileStem p = none := by
        unfold pathFileStem
        rw [hfn]
      unfold pe_file_stem o2r
      rw [hfs]
      rfl
  · intro h
    unfold pe_extension o2r
    rw [h]
    rfl
  · intro d
    rfl

/-- C1 witness: the doctest inputs, with the exact rendered texts. -/
theorem c1_witness :
    pe_parent (bytesOf "/") = Except.error (pathErr "no parent path" (bytesOf "/")) ∧
    pe_file_name (bytesOf "/tmp/..") =
      Except.error (pathErr "no file name" (bytesOf "/tmp/..")) ∧
    pe_extension (bytesOf "/tmp/no_extension") =
      Except.error (pathErr "no file name or no extension" (bytesOf "/tmp/no_extension")) ∧
    renderError (pathErr "no parent path" (bytesOf "/")) = "no parent path\n-with path: /" :=
  ⟨(c1_absence_descriptions (bytesOf "/")).1 (by decide),
   ((c1_absence_descriptions (bytesOf "/tmp/..")).2.1 (Or.inl (by decide))).1,
   (c1_absence_descriptions (bytesOf "/tmp/no_extension")).2.2.1 (by decide),
   by
     rw [(c1_absence_descriptions (bytesOf "/")).2.2.2 "no parent path"]
     decide⟩

/-- C8: when the queried component exists, the accessor succeeds with exactly
the native component unchanged, and repeated calls on the same path return
equal values (the operations are pure, so a second call is literally the same
value). -/
theorem c8_success_passthrough :
    ∀ p : List Nat,
      (∀ v, pathParent p = some v → pe_parent p = Except.ok v ∧ pe_parent p = pe_parent p) ∧
      (∀ v, pathFileName p = some v →
        pe_file_name p = Except.ok v ∧ pe_file_name p = pe_file_name p) ∧
      (∀ v, pathFileStem p = some v →
        pe_file_stem p = Except.ok v ∧ pe_file_stem p = pe_file_stem p) ∧
      (∀ v, pathExtension p = some v →
        pe_extension p = Except.ok v ∧ pe_extension p = pe_extension p) ∧
      (∀ s, osToStr p = some s → pe_to_str p = Except.ok s ∧ pe_to_str p = pe_to_str p) := by
  intro p
  refine ⟨?_, ?_, ?_, ?_, ?_⟩ <;> intro v h <;> refine ⟨?_, rfl⟩
  · unfold pe_parent o2r
    rw [h]
  · unfold pe_file_name o2r
    rw [h]
  · unfold pe_file_stem o2r
    rw [h]
  · unfold pe_extension o2r
    rw [h]
  · unfold pe_to_str o2r
    rw [h]

/-- C8 witness: a path having all the components. -/
theorem c8_witness :
    pe_parent (bytesOf "/a/b.txt") = Except.ok (bytesOf "/a") ∧
    pe_file_name (bytesOf "/a/b.txt") = Except.ok (bytesOf "b.txt") ∧
    pe_file_stem (bytesOf "/a/b.txt") = Except.ok (bytesOf "b") ∧
    pe_extension (bytesOf "/a/b.txt") = Except.ok (bytesOf "txt") ∧
    pe_to_str (bytesOf "/a/b.txt") = Except.ok "/a/b.txt" :=
  ⟨((c8_success_passthrough (bytesOf "/a/b.txt")).1 (bytesOf "/a") (by decide)).1,
   ((c8_success_passthrough (bytesOf "/a/b.txt")).2.1 (bytesOf "b.txt") (by decide)).1,
   ((c8_success_passthrough (bytesOf "/a/b.txt")).2.2.1 (bytesOf "b") (by decide)).1,
   ((c8_success_passthrough (bytesOf "/a/b.txt")).2.2.2.1 (bytesOf "txt") (by decide)).1,
   ((c8_success_passthrough (bytesOf "/a/b.txt")).2.2.2.2 "/a/b.txt" (by decide)).1⟩

/-- C9: the _str variants check absence before encoding: they fail with the
absence description ("no file name", or "no file name or no extension" for
the extension variant) when the component is absent, fail with "invalid utf8"
only when the component exists but is not valid UTF-8, and succeed with the
UTF-8 text when the component exists and is valid. -/
theorem c9_str_variants :
    ∀ p : List Nat,
      (pathFileName p = none →
        pe_file_name_str p = Except.error (pathErr "no file name" p)) ∧
      (∀ n, pathFileName p = some n → osToStr n = none →
        pe_file_name_str p = Except.error (pathErr "invalid utf8" p)) ∧
      (∀ n s, pathFileName p = some n → osToStr n = some s →
        pe_file_name_str p = Except.ok s) ∧
      (pathFileStem p = none →
        pe_file_stem_str p = Except.error (pathErr "no file name" p)) ∧
      (∀ n, pathFileStem p = some n → osToStr n = none →
        pe_file_stem_str p = Except.error (pathErr "invalid utf8" p)) ∧
      (∀ n s, pathFileStem p = some n → osToStr n = some s →
        pe_file_stem_str p = Except.ok s) ∧
      (pathExtension p = none →
        pe_extension_str p = Except.error (pathErr "no file name or no extension" p)) ∧
      (∀ n, pathExtension p = some n → osToStr n = none →
        pe_extension_str p = Except.error (pathErr "invalid utf8" p)) ∧
      (∀ n s, pathExtension p = some n → osToStr n = some s →
        pe_extension_str p = Except.ok s) := by
  intro p
  refine ⟨?_, ?_, ?_, ?_, ?_, ?_, ?_, ?_, ?_⟩
  · intro h
    simp [pe_file_name_str, pe_file_name, o2r, h, pathErr]
  · intro n h hu
    simp [pe_file_name_str, pe_file_name, o2r, h, hu, pathErr]
  · intro n s h hu
    simp [pe_file_name_str, pe_file_name, o2r, h, hu]
  · intro h
    simp [pe_file_stem_str, pe_file_stem, o2r, h, pathErr]
  · intro n h hu
    simp [pe_file_stem_str, pe_file_stem, o2r, h, hu, pathErr]
  · intro n s h hu
    simp [pe_file_stem_str, pe_file_stem, o2r, h, hu]
  · intro h
    simp [pe_extension_str, pe_extension, o2r, h, pathErr]
  · intro n h hu
    simp [pe_extension_str, pe_extension, o2r, h, hu, pathErr]
  · intro n s h hu
    simp [pe_extension_str, pe_extension, o2r, h, hu]

/-- C9 witness: an absent name, a non-UTF-8 name, and a valid name. -/
theorem c9_witness :
    pe_file_name_str (bytesOf "/tmp/..") =
      Except.error (pathErr "no file name" (bytesOf "/tmp/..")) ∧
    pe_file_name_str [255] = Except.error (pathErr "invalid utf8" [255]) ∧
    pe_file_name_str (bytesOf "/a/b.txt") = Except.ok "b.txt" ∧
    pe_extension_str [102, 46, 255] = Except.error (pathErr "invalid utf8" [102, 46, 255]) ∧
    pe_extension_str (bytesOf "/a/b.txt") = Except.ok "txt" :=
  ⟨(c9_str_variants (bytesOf "/tmp/..")).1 (by decide),
   (c9_str_variants [255]).2.1 [255] (by decide) (by decide),
   (c9_str_variants (bytesOf "/a/b.txt")).2.2.1 (bytesOf "b.txt") "b.txt" (by decide) (by decide),
   (c9_str_variants [102, 46, 255]).2.2.2.2.2.2.2.1 [255] (by decide) (by decide),
   (c9_str_variants (bytesOf "/a/b.txt")).2.2.2.2.2.2.2.2 (bytesOf "txt") "txt" (by decide) (by decide)⟩

/-- C5: when the path does not start with the prefix, pe_strip_prefix fails
with description "prefix mismatch" carrying the annotations prefix then path,
and the rendered text contains the prefix line followed by the path line, in
that order. -/
theorem c5_strip_prefix_mismatch :
    ∀ p base : List Nat, pathStripPfx p base = none →
      pe_strip_prefix p base =
        Except.error
          (IoError.mk "prefix mismatch"
            [("prefix", displayS base), ("path", displayS p)]) ∧
      renderError
          (IoError.mk "prefix mismatch"
            [("prefix", displayS base), ("path", displayS p)]) =
        "prefix mismatch" ++ ("\n-with prefix: " ++ displayS base) ++
          ("\n-with path: " ++ displayS p) := by
  intro p base h
  constructor
  · unfold pe_strip_prefix
    rw [h]
    rfl
  · rfl

/-- C5 witness: the doctest inputs and the exact rendered text. -/
theorem c5_witness :
    pe_strip_prefix (bytesOf "/tmp/foo.txt") (bytesOf "/temp/") =
      Except.error
        (IoError.mk "prefix mismatch" [("prefix", "/temp/"), ("path", "/tmp/foo.txt")]) ∧
    renderError
        (IoError.mk "prefix mismatch" [("prefix", "/temp/"), ("path", "/tmp/foo.txt")]) =
      "prefix mismatch\n-with prefix: /temp/\n-with path: /tmp/foo.txt" := by
  have h := c5_strip_prefix_mismatch (bytesOf "/tmp/foo.txt") (bytesOf "/temp/") (by decide)
  constructor
  · rw [h.1]
    rw [show displayS (bytesOf "/temp/") = "/temp/" from by decide]
    rw [show displayS (bytesOf "/tmp/foo.txt") = "/tmp/foo.txt" from by decide]
  · decide

/-- C10: for the pure path operations the historical direct impl of
src/src/pathimpl.rs (routing absence through PathExtPriv::o2r of
src/src/privtrait.rs) and the default trait methods of src/src/pathext.rs
compute identical results: the same success value on success and the same
error (hence the same rendered text) on failure. -/
theorem c10_impl_equivalence :
    ∀ p base : List Nat,
      PathImpl.pe_to_str p = pe_to_str p ∧
      PathImpl.pe_parent p = pe_parent p ∧
      PathImpl.pe_file_name p = pe_file_name p ∧
      PathImpl.pe_file_stem p = pe_file_stem p ∧
      PathImpl.pe_extension p = pe_extension p ∧
      PathImpl.pe_strip_prefix p base = pe_strip_prefix p base := by
  intro p base
  refine ⟨?_, ?_, ?_, ?_, ?_, ?_⟩
  · unfold PathImpl.pe_to_str pe_to_str pep_o2r o2r otherError
    rfl
  · unfold PathImpl.pe_parent pe_parent pep_o2r o2r otherError
    rfl
  · unfold PathImpl.pe_file_name pe_file_name pep_o2r o2r otherError
    rfl
  · unfold PathImpl.pe_file_stem pe_file_stem pep_o2r o2r otherError
    rfl
  · unfold PathImpl.pe_extension pe_extension pep_o2r o2r otherError
    rfl
  · rfl

/-- C2 counterexample: for pe_strip_prefix, which attaches "prefix" and then
"path", the rendered text is the doctest string in which the annotation
attached last ("path") appears LAST, not first: the rendering the claim
predicts (path line first) differs from the actual rendering. -/
theorem c2_counterexample :
    pe_strip_prefix (bytesOf "/tmp/foo.txt") (bytesOf "/temp/") =
      Except.error
        (IoError.mk "prefix mismatch" [("prefix", "/temp/"), ("path", "/tmp/foo.txt")]) ∧
    renderError
        (IoError.mk "prefix mismatch" [("prefix", "/temp/"), ("path", "/tmp/foo.txt")]) =
      "prefix mismatch\n-with prefix: /temp/\n-with path: /tmp/foo.txt" ∧
    renderError
        (IoError.mk "prefix mismatch" [("prefix", "/temp/"), ("path", "/tmp/foo.txt")]) ≠
      "prefix mismatch\n-with path: /tmp/foo.txt\n-with prefix: /temp/" := by
  refine ⟨?_, by decide, by decide⟩
  unfold pe_strip_prefix
  rw [show pathStripPfx (bytesOf "/tmp/foo.txt") (bytesOf "/temp/") = none from by decide]
  rw [show displayS (bytesOf "/temp/") = "/temp/" from by decide]
  rw [show displayS (bytesOf "/tmp/foo.txt") = "/tmp/foo.txt" from by decide]
  rfl

/-- C2 amended: the rendered text is the short description on the first line
followed by one line per annotation in the form "-with label: value", in
ATTACHMENT ORDER: the earliest-attached annotation first and the
most-recently-attached last, with no trailing separators; in particular
pe_strip_prefix (which attaches prefix then path) renders the prefix line
before the path line, and pe_copy (which attaches from then to) renders the
from line before the to line. -/
theorem c2_render_order :
    (∀ p base : List Nat, pathStripPfx p base = none →
      pe_strip_prefix p base =
        Except.error
          (IoError.mk "prefix mismatch"
            [("prefix", displayS base), ("path", displayS p)])) ∧
    (∀ p q : List Nat, ∀ e : IoError,
      pe_copy p q (Except.error e) =
        Except.error
          (IoError.mk e.desc
            (e.annotations ++ [("from", displayS p), ("to", displayS q)]))) ∧
    (∀ d : String, ∀ a1 a2 : String × String,
      renderError (IoError.mk d [a1, a2]) = d ++ annLine a1 ++ annLine a2) ∧
    (∀ l v : String, annLine (l, v) = "\n-with " ++ l ++ ": " ++ v) := by
  refine ⟨?_, ?_, ?_, ?_⟩
  · intro p base h
    unfold pe_strip_prefix
    rw [h]
    rfl
  · intro p q e
    unfold pe_copy annotate
    dsimp only
    rw [List.append_assoc]
    rfl
  · intro d a1 a2
    rfl
  · intro l v
    rfl

/-- C2 amended witness: concrete instances of all three parts. -/
theorem c2_render_order_witness :
    pe_strip_prefix (bytesOf "/a") (bytesOf "/b") =
      Except.error
        (IoError.mk "prefix mismatch"
          [("prefix", displayS (bytesOf "/b")), ("path", displayS (bytesOf "/a"))]) ∧
    pe_copy (bytesOf "/src") (bytesOf "/dst") (Except.error (IoError.mk "boom" [])) =
      Except.error
        (IoError.mk "boom"
          [("from", displayS (bytesOf "/src")), ("to", displayS (bytesOf "/dst"))]) ∧
    renderError (IoError.mk "boom" [("from", "/src"), ("to", "/dst")]) =
      "boom" ++ annLine ("from", "/src") ++ annLine ("to", "/dst") ∧
    annLine ("from", "/src") = "\n-with " ++ "from" ++ ": " ++ "/src" :=
  ⟨c2_render_order.1 (bytesOf "/a") (bytesOf "/b") (by decide),
   c2_render_order.2.1 (bytesOf "/src") (bytesOf "/dst") (IoError.mk "boom" []),
   c2_render_order.2.2.1 "boom" ("from", "/src") ("to", "/dst"),
   c2_render_order.2.2.2 "from" "/src"⟩

/-- C3: evaluation at the failing input: require_file_type on metadata for
path /tmp/x whose file type is a regular file, expecting a directory, returns
an error whose annotation list is EMPTY, so no annotation names any path
involved in the operation, contradicting the claim that every returned error
carries at least one path annotation. -/
theorem c3_require_file_type_unannotated :
    PathMetadata.require_file_type
        (PathMetadata.mk (bytesOf "/tmp/x") (Metadata.mk (FileType.mk false true false) 0))
        FileTypeEnum.dir =
      some (Except.error (IoError.mk "found File, expected Dir" [])) ∧
    (IoError.mk "found File, expected Dir" []).annotations = [] := by
  constructor
  · rfl
  · rfl

/-- C4 counterexample: a file type that is neither directory, regular file,
nor symlink (e.g. a FIFO or socket, all three queries false) makes the
FileType conversion of src/src/filetype.rs reach unreachable!, modelled as
none: the conversion (and require_file_type, which invokes it) panics rather
than returning an ordinary result. -/
theorem c4_counterexample :
    fileTypeEnumFrom (FileType.mk false false false) = none ∧
    PathMetadata.require_file_type
        (PathMetadata.mk (bytesOf "/tmp/fifo")
          (Metadata.mk (FileType.mk false false false) 0))
        FileTypeEnum.dir = none := by
  constructor
  · rfl
  · rfl

/-- C4 amended: for every input whose file-type discriminant is directory,
regular file, or symlink, the conversion and require_file_type return an
ordinary result (no panic); the panic occurs exactly on the remaining
discriminants. -/
theorem c4_no_panic_on_coherent_types :
    ∀ ft : FileType,
      (ft.isDir = true ∨ ft.isFile = true ∨ ft.isSymlink = true) →
      (fileTypeEnumFrom ft).isSome = true ∧
      ∀ (p : List Nat) (n : Nat) (exp : FileTypeEnum),
        (PathMetadata.require_file_type (PathMetadata.mk p (Metadata.mk ft n)) exp).isSome =
          true := by
  intro ft h
  have hsome : (fileTypeEnumFrom ft).isSome = true := by
    unfold fileTypeEnumFrom
    by_cases h1 : ft.isDir = true
    · rw [if_pos h1]
      rfl
    · rw [if_neg h1]
      by_cases h2 : ft.isFile = true
      · rw [if_pos h2]
        rfl
      · rw [if_neg h2]
        by_cases h3 : ft.isSymlink = true
        · rw [if_pos h3]
          rfl
        · rcases h with h | h | h
          · exact absurd h h1
          · exact absurd h h2
          · exact absurd h h3
  refine ⟨hsome, ?_⟩
  intro p n exp
  unfold PathMetadata.require_file_type
  rcases hfe : fileTypeEnumFrom ft with _ | found
  · rw [hfe] at hsome
    simp at hsome
  · simp

/-- C4 amended witness: the three coherent discriminants at a concrete
metadata value. -/
theorem c4_no_panic_witness :
    (fileTypeEnumFrom (FileType.mk true false false)).isSome = true ∧
    (PathMetadata.require_file_type
        (PathMetadata.mk (bytesOf "/tmp/x") (Metadata.mk (FileType.mk false false true) 7))
        FileTypeEnum.file).isSome = true :=
  ⟨(c4_no_panic_on_coherent_types (FileType.mk true false false) (Or.inl (by decide))).1,
   (c4_no_panic_on_coherent_types (FileType.mk false false true)
      (Or.inr (Or.inr (by decide)))).2 (bytesOf "/tmp/x") 7 FileTypeEnum.file⟩

/-- Helper: collecting a wrapped listing whose underlying entries are all
successes yields all entries in order. -/
theorem collect_items_all_ok (p : List Nat) :
    ∀ ds : List DirEntry,
      collectExcept (List.map (wrapItem p) (List.map Except.ok ds)) =
        Except.ok (List.map (fun d => PathDirEntry.mk p d) ds) := by
  intro ds
  induction ds with
  | nil => rfl
  | cons d rest ih =>
    simp only [List.map_cons, wrapItem, collectExcept, ih]

/-- Helper: collecting a wrapped listing short-circuits at the first
underlying failure, which is annotated with the directory path. -/
theorem collect_items_first_error (p : List Nat) (err : IoError) :
    ∀ (pre : List DirEntry) (post : List (Except IoError DirEntry)),
      collectExcept
          (List.map (wrapItem p) (List.map Except.ok pre ++ Except.error err :: post)) =
        Except.error (annotate "path" (displayS p) err) := by
  intro pre post
  induction pre with
  | nil => rfl
  | cons d rest ih =>
    simp only [List.map_cons, List.cons_append, wrapItem, collectExcept, List.append_eq, ih]

/-- C6: pe_read_dir_entries eagerly collects the listing and short-circuits:
when the underlying sequence contains a failure (after any run of successful
entries), the result is exactly the first failure, annotated with the
directory path, and no entries; when every underlying entry succeeds, the
result is the full sequence of wrapped entries in the underlying order. -/
theorem c6_read_dir_entries_collect :
    (∀ (p : List Nat) (pre : List DirEntry) (err : IoError)
        (post : List (Except IoError DirEntry)),
      pe_read_dir_entries p (Except.ok (List.map Except.ok pre ++ Except.error err :: post)) =
        Except.error (annotate "path" (displayS p) err)) ∧
    (∀ (q : List Nat) (ds : List DirEntry),
      pe_read_dir_entries q (Except.ok (List.map Except.ok ds)) =
        Except.ok (List.map (fun d => PathDirEntry.mk q d) ds)) := by
  constructor
  · intro p pre err post
    exact collect_items_first_error p err pre post
  · intro q ds
    exact collect_items_all_ok q ds

/-- C7 counterexample: an entry named e of directory /d whose native
file_type call fails: the resulting error is annotated with the entry path
/d/e under the label "path", not with the directory path /d, contradicting
the claim that every per-entry dereference, including the file-type
accessor, is annotated with the directory path. -/
theorem c7_counterexample :
    PathDirEntry.file_type
        (PathDirEntry.mk (bytesOf "/d")
          (DirEntry.mk (bytesOf "e")
            (Except.ok (Metadata.mk (FileType.mk false true false) 0))
            (Except.error (IoError.mk "boom" [])))) =
      Except.error (IoError.mk "boom" [("path", "/d/e")]) ∧
    displayS (bytesOf "/d") = "/d" ∧
    ("/d/e" : String) ≠ "/d" := by
  refine ⟨?_, by decide, by decide⟩
  rfl

/-- C7 amended: per-entry failures yielded by the directory-listing iterator
are annotated with the directory path, and the metadata accessor annotates
its failures with the containing directory path (label "parent-dir"); the
file-type accessor, however, annotates its failures with the entry own
path (the directory joined with the entry name), not the directory path. -/
theorem c7_entry_error_annotations :
    (∀ (p : List Nat) (pre post : List (Except IoError DirEntry)) (e : IoError),
      PathReadDir.items (PathReadDir.mk p (pre ++ Except.error e :: post)) =
        PathReadDir.items (PathReadDir.mk p pre) ++
          Except.error (annotate "path" (displayS p) e) ::
            PathReadDir.items (PathReadDir.mk p post)) ∧
    (∀ (dir : List Nat) (de : DirEntry) (err : IoError), de.mdResult = Except.error err →
      PathDirEntry.metadata (PathDirEntry.mk dir de) =
        Except.error (annotate "parent-dir" (displayS dir) err)) ∧
    (∀ (dir : List Nat) (de : DirEntry) (err : IoError), de.ftResult = Except.error err →
      PathDirEntry.file_type (PathDirEntry.mk dir de) =
        Except.error (annotate "path" (displayS (pathJoin dir de.name)) err)) := by
  refine ⟨?_, ?_, ?_⟩
  · intro p pre post e
    simp [PathReadDir.items, wrapItem]
  · intro dir de err h
    simp [PathDirEntry.metadata, h]
  · intro dir de err h
    simp [PathDirEntry.file_type, PathDirEntry.path, h]

/-- C7 amended witness: a failing metadata call and a failing file-type
call on concrete entries. -/
theorem c7_entry_error_annotations_witness :
    PathDirEntry.metadata
        (PathDirEntry.mk (bytesOf "/d")
          (DirEntry.mk (bytesOf "e") (Except.error (IoError.mk "denied" []))
            (Except.ok (FileType.mk false true false)))) =
      Except.error (annotate "parent-dir" (displayS (bytesOf "/d")) (IoError.mk "denied" [])) ∧
    PathDirEntry.file_type
        (PathDirEntry.mk (bytesOf "/d")
          (DirEntry.mk (bytesOf "e")
            (Except.ok (Metadata.mk (FileType.mk false true false) 0))
            (Except.error (IoError.mk "boom" [])))) =
      Except.error
        (annotate "path" (displayS (pathJoin (bytesOf "/d") (bytesOf "e")))
          (IoError.mk "boom" [])) :=
  ⟨c7_entry_error_annotations.2.1 (bytesOf "/d")
      (DirEntry.mk (bytesOf "e") (Except.error (IoError.mk "denied" []))
        (Except.ok (FileType.mk false true false)))
      (IoError.mk "denied" []) rfl,
   c7_entry_error_annotations.2.2 (bytesOf "/d")
      (DirEntry.mk (bytesOf "e")
        (Except.ok (Metadata.mk (FileType.mk false true false) 0))
        (Except.error (IoError.mk "boom" [])))
      (IoError.mk "boom" []) rfl⟩
